import Mathlib

/-!
Verification of the persona-wizard frontend task-polling client.

The definitions below are a shallow embedding of the relevant TypeScript
source files:
  * `frontend/src/components/PreviewGenerator.tsx` — task creation,
    2-second status polling, cancellation, and the SadTalker sub-panel;
  * `frontend/src/components/BundleInference.tsx` — the simulated
    inference-progress ticker and its stale-update check;
  * `frontend/src/app/wizard/image/page.tsx` — the upload results panel.
React state updates are modelled as explicit state passing; `fetch`
outcomes are modelled as `Except String α` values (the `error` branch is
the thrown message, covering both network errors and non-ok responses).
JavaScript numbers that can be fractional are modelled as `ℚ`; JSON
integers as `Int`; `string | undefined` fields as `Option String`.
-/

/-- The task snapshot returned by `GET /api/preview/status-full/{id}`,
mirroring the `PreviewTask` interface in `PreviewGenerator.tsx`. -/
structure PreviewTask where
  task_id : String
  status : String
  progress : Int
  current_step : Option String
  message : Option String
  video_path : Option String
  audio_path : Option String
  error : Option String
deriving Repr, DecidableEq

/-- The component state of `PreviewGenerator` (`useState` hooks), plus
`pollingActive`, which models whether the `setInterval` timer created by
`pollTaskStatus` is still installed (`clearInterval` sets it to false). -/
structure ClientState where
  prompt : String
  isGenerating : Bool
  currentTask : Option PreviewTask
  error : Option String
  previewVideo : Option String
  pollingActive : Bool
deriving Repr, DecidableEq

/-- The polling period passed to `setInterval` in `pollTaskStatus`
(`}, 2000) // Poll every 2 seconds`). -/
def pollIntervalMs : Nat := 2000

/-- JavaScript `x || d` for a `string | undefined` value `x`: the default
is taken when `x` is `undefined` or falsy (the empty string). -/
def jsStringOr (x : Option String) (d : String) : String :=
  match x with
  | some v => if v = "" then d else v
  | none => d

/-- One execution of the `setInterval` callback in `pollTaskStatus`.
Input: the component state and the poll outcome (`Except.error msg` when
the fetch threw or the response was non-ok; `Except.ok task` when a task
snapshot was parsed).  Output: the new component state and the argument
passed to the `onPreviewGenerated` callback, if it was invoked.  The
source's `if (task.video_path)` is a JavaScript truthiness test, so the
preview video is recorded and the callback fired only when `video_path`
is present and non-empty. -/
def pollStep (s : ClientState) (resp : Except String PreviewTask) :
    ClientState × Option String :=
  match resp with
  | Except.error msg =>
      ({ s with isGenerating := false, pollingActive := false,
                error := some msg }, none)
  | Except.ok task =>
      let s1 := { s with currentTask := some task }
      if task.status = "completed" then
        let s2 := { s1 with isGenerating := false, pollingActive := false }
        match task.video_path with
        | some vp =>
            if vp = "" then (s2, none)
            else ({ s2 with previewVideo := some vp }, some vp)
        | none => (s2, none)
      else if task.status = "failed" then
        ({ s1 with isGenerating := false, pollingActive := false,
                   error := some (jsStringOr task.error "Preview generation failed") },
         none)
      else (s1, none)

/-- The JSON body sent by `generatePreview`: exactly the two fields
`prompt` and `use_sample`. -/
structure GenerateRequestBody where
  prompt : String
  use_sample : Bool
deriving Repr, DecidableEq

/-- An HTTP request issued by the client (method and URL path). -/
structure HttpRequest where
  method : String
  path : String
deriving Repr, DecidableEq

/-- The JSON body of a successful `POST /api/preview/generate-full`
response, as read by `generatePreview`. -/
structure CreateResponse where
  task_id : String
  status : String
  progress : Int
  message : Option String
deriving Repr, DecidableEq

/-- JavaScript `s.trim()`: strip whitespace from both ends. -/
def jsTrim (s : String) : String :=
  String.mk
    (((s.toList.dropWhile Char.isWhitespace).reverse.dropWhile
        Char.isWhitespace).reverse)

/-- The request issued by `generatePreview`: `none` when the trimmed
prompt is empty (the function returns early with a validation error and
performs no fetch); otherwise a `POST` to `/api/preview/generate-full`
with body `{prompt: prompt.trim(), use_sample: true}`. -/
def generateRequest (s : ClientState) : Option (HttpRequest × GenerateRequestBody) :=
  if jsTrim s.prompt = "" then none
  else some ({ method := "POST", path := "/api/preview/generate-full" },
             { prompt := jsTrim s.prompt, use_sample := true })

/-- The state update performed by `generatePreview` given the fetch
outcome: on success it records `task_id`, `status`, `progress` and
`message` into `currentTask` and starts the polling interval
(`pollTaskStatus` installs the timer, modelled as `pollingActive := true`). -/
def generateStart (s : ClientState) (resp : Except String CreateResponse) :
    ClientState :=
  if jsTrim s.prompt = "" then { s with error := some "Please enter a prompt" }
  else
    let s0 := { s with isGenerating := true, error := none,
                       currentTask := none, previewVideo := none }
    match resp with
    | Except.error msg => { s0 with error := some msg, isGenerating := false }
    | Except.ok d =>
        { s0 with
          currentTask := some { task_id := d.task_id, status := d.status,
                                progress := d.progress, current_step := none,
                                message := d.message, video_path := none,
                                audio_path := none, error := none },
          pollingActive := true }

/-- The request issued by `cancelGeneration`: `none` when no task is
active (the function returns before any fetch); otherwise a `DELETE` to
the per-task path. -/
def cancelRequest (s : ClientState) : Option HttpRequest :=
  match s.currentTask with
  | none => none
  | some t => some { method := "DELETE",
                     path := "/api/preview/tasks-full/" ++ t.task_id }

/-- The state update performed by `cancelGeneration` given the fetch
outcome.  Note that it never touches `pollingActive`: the interval handle
is local to `pollTaskStatus` and `cancelGeneration` never clears it. -/
def cancelStep (s : ClientState) (fetchResult : Except String Unit) :
    ClientState :=
  match s.currentTask with
  | none => s
  | some _ =>
      match fetchResult with
      | Except.ok _ => { s with isGenerating := false, currentTask := none }
      | Except.error msg => { s with error := some msg }

/-- Substring search on character lists: does `pat` occur (contiguously)
anywhere in the list?  Models JavaScript `String.prototype.includes`. -/
def containsFrom (pat : List Char) : List Char → Bool
  | [] => pat.isEmpty
  | c :: rest => pat.isPrefixOf (c :: rest) || containsFrom pat rest

/-- JavaScript `s.includes(pat)`. -/
def strContainsSub (s pat : String) : Bool :=
  containsFrom pat.toList s.toList

/-- Remove the first (leftmost) occurrence of `pat` from the list, or
return the list unchanged when `pat` does not occur. -/
def removeFirstList (pat : List Char) : List Char → List Char
  | [] => []
  | c :: rest =>
      if pat.isPrefixOf (c :: rest) then (c :: rest).drop pat.length
      else c :: removeFirstList pat rest

/-- JavaScript `s.replace(pat, "")` with a string `pat`: removes only the
first occurrence of `pat`, wherever in `s` it appears. -/
def jsReplaceFirst (s pat : String) : String :=
  String.mk (removeFirstList pat.toList s.toList)

/-- The condition of `PreviewGenerator`'s nested video-stage panel
(lines 251-256): `currentTask.status === 'generating_video' &&
currentTask.message?.includes('SadTalker')`. -/
def sadTalkerPanelShown (t : PreviewTask) : Bool :=
  t.status == "generating_video" &&
    (match t.message with
     | some m => strContainsSub m "SadTalker"
     | none => false)

/-- The detail line rendered inside the nested panel when it is shown:
`currentTask.message.replace('SadTalker: ', '')`; `none` when the panel
is not rendered. -/
def sadTalkerDetail (t : PreviewTask) : Option String :=
  match t.message with
  | none => none
  | some m =>
      if t.status == "generating_video" && strContainsSub m "SadTalker"
      then some (jsReplaceFirst m "SadTalker: ")
      else none

/-- Removal of the literal prefix `"SadTalker: "`, following the words of
the claim ("the message with the prefix removed"): the message is changed
only when it actually starts with that prefix.  Stated for comparison
with `jsReplaceFirst`, which removes the first occurrence anywhere. -/
def stripSadTalkerHead (m : String) : String :=
  if "SadTalker: ".toList.isPrefixOf m.toList
  then String.mk (m.toList.drop "SadTalker: ".toList.length)
  else m

/-- The `inferenceProgress` state of `BundleInference` (`useState`);
`progress` is a JavaScript number and can be fractional
(`prev.progress + Math.random() * 15`), so it is modelled as `ℚ`. -/
structure InferenceProgress where
  status : String
  progress : ℚ
  message : String
  error : Option String
deriving Repr, DecidableEq

/-- The stage message chosen from the fresh progress value inside the
simulated-progress interval callback of `runInference`. -/
def tickMessage (p : ℚ) : String :=
  if p < 20 then "Loading bundle..."
  else if p < 40 then "Generating text..."
  else if p < 60 then "Synthesizing voice..."
  else if p < 80 then "Generating lip-sync video..."
  else "Finalizing output..."

/-- The new progress value of one simulated tick:
`Math.min(prev.progress + Math.random() * 15, 90)`, with `r` standing for
the `Math.random()` draw (so `0 ≤ r < 1`). -/
def tickProgress (p r : ℚ) : ℚ :=
  min (p + r * 15) 90

/-- One execution of the simulated-progress `setInterval` callback in
`runInference` (lines 83-98): the functional updater first checks
`prev.status !== 'running'` and returns `prev` unchanged in that case;
otherwise it advances `progress` and recomputes `message`. -/
def progressTick (s : InferenceProgress) (r : ℚ) : InferenceProgress :=
  if s.status ≠ "running" then s
  else { s with progress := tickProgress s.progress r,
                message := tickMessage (tickProgress s.progress r) }

/-- The terminal statuses of the spec's task state machine. -/
def terminalStatus (st : String) : Bool :=
  st == "completed" || st == "failed" || st == "cancelled"

/-- A backend task record, with the fields relevant to progress updates. -/
structure TaskRecord where
  task_id : String
  status : String
  progress : Int
  message : String
deriving Repr, DecidableEq

/-- Modelled from the spec: the backend Pipeline Coordinator's
progress-update operation (the backend itself is not included in the
repository snapshot; only its HTTP contract is visible to the frontend).
Per the spec, the Coordinator checks that `status` is still non-terminal
before applying an update (stale writes are discarded), and while
non-terminal it keeps `progress` an integer in 0-100 that never
decreases. -/
def coordinatorApplyUpdate (t : TaskRecord) (p : Int) (msg : String) :
    TaskRecord :=
  if terminalStatus t.status then t
  else { t with progress := max t.progress (min 100 (max 0 p)),
                message := msg }

/-- The "Original Size" line of the image upload results panel
(`wizard/image/page.tsx` line 449-451): it interpolates
`original_size[1]` before `original_size[0]`.  A `[w, h]` response tuple
is modelled as the pair `(w, h)`, index 0 first. -/
def renderOriginalSize (originalSize : Int × Int) : String :=
  toString originalSize.2 ++ " × " ++ toString originalSize.1 ++ " pixels"

/-- The "Prepared Size" line of the same panel (lines 456-458): it
interpolates `output_size[0]` before `output_size[1]`. -/
def renderPreparedSize (outputSize : Int × Int) : String :=
  toString outputSize.1 ++ " × " ++ toString outputSize.2 ++ " pixels"

/-- A polling client state with the interval installed, used as a
concrete input in witnesses. -/
def samplePollingState : ClientState :=
  { prompt := "tell me a story", isGenerating := true, currentTask := none,
    error := none, previewVideo := none, pollingActive := true }

/-- A task snapshot with status `cancelled`. -/
def sampleCancelledTask : PreviewTask :=
  { task_id := "t1", status := "cancelled", progress := 10,
    current_step := none, message := none, video_path := none,
    audio_path := none, error := none }

/-- A completed task snapshot carrying result fields. -/
def sampleCompletedTask : PreviewTask :=
  { task_id := "t1", status := "completed", progress := 100,
    current_step := none, message := some "Preview generated successfully!",
    video_path := some "/data/outputs/preview.mp4",
    audio_path := some "/data/outputs/preview.wav", error := none }

/-- A failed task snapshot whose `error` field is a non-empty string. -/
def sampleFailedTask : PreviewTask :=
  { task_id := "t1", status := "failed", progress := 40,
    current_step := none, message := none, video_path := none,
    audio_path := none, error := some "TTS model not found" }

/-- A failed task snapshot whose `error` field is present but equal to
the empty string. -/
def emptyErrorTask : PreviewTask :=
  { task_id := "t1", status := "failed", progress := 40,
    current_step := none, message := none, video_path := none,
    audio_path := none, error := some "" }

/-- A running task snapshot in the middle of the video stage, whose
message mentions SadTalker somewhere other than as a prefix. -/
def midSadTalkerTask : PreviewTask :=
  { task_id := "t1", status := "generating_video", progress := 60,
    current_step := none, message := some "Running SadTalker: 42%",
    video_path := none, audio_path := none, error := none }

/-- A client state holding `sampleCancelledTask` as its current task. -/
def stateWithTask : ClientState :=
  { prompt := "tell me a story", isGenerating := true,
    currentTask := some sampleCancelledTask, error := none,
    previewVideo := none, pollingActive := true }

/-- A concrete successful `POST /api/preview/generate-full` response. -/
def sampleCreateResponse : CreateResponse :=
  { task_id := "t1", status := "started", progress := 0,
    message := some "Starting preview generation..." }

/-- A running simulated-inference state. -/
def sampleRunningInf : InferenceProgress :=
  { status := "running", progress := 30, message := "Generating text...",
    error := none }

/-- A completed simulated-inference state (terminal for the updater). -/
def sampleDoneInf : InferenceProgress :=
  { status := "completed", progress := 100, message := "Inference completed!",
    error := none }

/-- A non-terminal backend task record. -/
def sampleTaskRecord : TaskRecord :=
  { task_id := "t1", status := "generating_text", progress := 10,
    message := "Generating text with LLM..." }

/-- A terminal (cancelled) backend task record. -/
def cancelledTaskRecord : TaskRecord :=
  { task_id := "t1", status := "cancelled", progress := 55,
    message := "Cancelled" }

example :
    (pollStep samplePollingState (Except.ok sampleCancelledTask)).1.pollingActive
      = true := by decide

example : jsReplaceFirst "Running SadTalker: 42%" "SadTalker: " = "Running 42%" := by
  decide

example : stripSadTalkerHead "Running SadTalker: 42%" = "Running SadTalker: 42%" := by
  decide

example : stripSadTalkerHead "SadTalker: frame 3" = "frame 3" := by
  decide

example : strContainsSub "abc SadTalker x" "SadTalker" = true := by decide

example : renderOriginalSize (800, 600) = "600 × 800 pixels" := by decide

example : tickProgress 85 (1 / 2) = 90 := by
  rw [tickProgress, min_eq_right (by norm_num)]

example : progressTick sampleDoneInf (1 / 2) = sampleDoneInf := by
  rw [progressTick, if_pos (by decide)]

/-- A list is a Boolean prefix of itself followed by anything. -/
theorem isPrefixOf_append_self (pat l : List Char) :
    pat.isPrefixOf (pat ++ l) = true := by
  induction pat with
  | nil => simp [List.isPrefixOf]
  | cons p ps ih => simp [List.isPrefixOf, ih]

/-- Removing the first occurrence of `pat` from `pat ++ l` leaves `l`. -/
theorem removeFirstList_append (pat l : List Char) :
    removeFirstList pat (pat ++ l) = l := by
  cases pat with
  | nil =>
      cases l with
      | nil => rfl
      | cons c rest => simp [removeFirstList, List.isPrefixOf]
  | cons p ps =>
      have hpre : (p :: ps).isPrefixOf ((p :: ps) ++ l) = true :=
        isPrefixOf_append_self (p :: ps) l
      rw [List.cons_append] at hpre
      rw [List.cons_append, removeFirstList, if_pos hpre, ← List.cons_append,
          List.drop_left]

/-- On a message that literally starts with `"SadTalker: "`,
first-occurrence removal agrees with prefix removal. -/
theorem jsReplaceFirst_strip (rest : String) :
    jsReplaceFirst ("SadTalker: " ++ rest) "SadTalker: " = rest := by
  cases rest with
  | mk data =>
      show String.mk (removeFirstList "SadTalker: ".toList
        ("SadTalker: ".toList ++ data)) = String.mk data
      rw [removeFirstList_append]

/-- Claim C1: for every created task the client polls status on a fixed
2000 ms interval, and a poll that returns a task snapshot stops the
polling exactly when the snapshot's status is `completed` or `failed`;
any other returned status — `cancelled` included — leaves the interval
installed. -/
theorem poll_stops_exactly_on_completed_or_failed
    (s : ClientState) (t : PreviewTask) (hs : s.pollingActive = true) :
    pollIntervalMs = 2000 ∧
    ((pollStep s (Except.ok t)).1.pollingActive = false ↔
      (t.status = "completed" ∨ t.status = "failed")) := by
  refine ⟨rfl, ?_⟩
  by_cases h1 : t.status = "completed"
  · cases hv : t.video_path with
    | none => simp [pollStep, h1, hv]
    | some vp => by_cases hvp : vp = "" <;> simp [pollStep, h1, hv, hvp]
  · by_cases h2 : t.status = "failed"
    · simp [pollStep, h1, h2]
    · simp [pollStep, h1, h2, hs]

/-- Witness for C1: a poll observing status `cancelled` does not stop
the 2000 ms polling loop. -/
theorem poll_stops_exactly_witness :
    pollIntervalMs = 2000 ∧
    ((pollStep samplePollingState (Except.ok sampleCancelledTask)).1.pollingActive
        = false ↔
      (sampleCancelledTask.status = "completed" ∨
        sampleCancelledTask.status = "failed")) :=
  poll_stops_exactly_on_completed_or_failed samplePollingState
    sampleCancelledTask rfl

/-- Claim C4: on a poll returning status `completed` with a truthy
(present, non-empty) video path, the client stops polling, stores the
full snapshot (so the video path, audio path and progress fields are
read into state), records the video path as the preview video, and
invokes `onPreviewGenerated` with that path. -/
theorem completed_poll_records_result
    (s : ClientState) (t : PreviewTask) (vp : String)
    (hst : t.status = "completed") (hvp : t.video_path = some vp)
    (hne : vp ≠ "") :
    (pollStep s (Except.ok t)).1.pollingActive = false ∧
    (pollStep s (Except.ok t)).1.isGenerating = false ∧
    (pollStep s (Except.ok t)).1.currentTask = some t ∧
    (pollStep s (Except.ok t)).1.previewVideo = some vp ∧
    (pollStep s (Except.ok t)).2 = some vp := by
  simp [pollStep, hst, hvp, hne]

/-- Witness for C4 at a concrete completed snapshot. -/
theorem completed_poll_records_result_witness :
    (pollStep samplePollingState (Except.ok sampleCompletedTask)).1.previewVideo
        = some "/data/outputs/preview.mp4" ∧
    (pollStep samplePollingState (Except.ok sampleCompletedTask)).2
        = some "/data/outputs/preview.mp4" :=
  ⟨(completed_poll_records_result samplePollingState sampleCompletedTask
      "/data/outputs/preview.mp4" rfl rfl (by decide)).2.2.2.1,
   (completed_poll_records_result samplePollingState sampleCompletedTask
      "/data/outputs/preview.mp4" rfl rfl (by decide)).2.2.2.2⟩

/-- Counterexample for C5: the claim says the default failure message is
substituted only when the `error` field is absent, but the code uses
JavaScript `task.error || default`, which also substitutes the default
when `error` is present and equal to the empty string. -/
theorem failed_error_substitution_cex :
    ¬ (∀ (s : ClientState) (t : PreviewTask) (e : String),
        t.status = "failed" → t.error = some e →
        (pollStep s (Except.ok t)).1.error = some e) := by
  intro h
  exact absurd (h samplePollingState emptyErrorTask "" rfl rfl) (by decide)

/-- Claim C5 (amended): on a poll returning status `failed` the client
stops polling and surfaces the task's error field, substituting the
default message exactly when the error field is absent or empty. -/
theorem failed_poll_surfaces_error
    (s : ClientState) (t : PreviewTask) (hst : t.status = "failed") :
    (pollStep s (Except.ok t)).1.pollingActive = false ∧
    (pollStep s (Except.ok t)).1.isGenerating = false ∧
    (∀ e : String, t.error = some e → e ≠ "" →
       (pollStep s (Except.ok t)).1.error = some e) ∧
    ((t.error = none ∨ t.error = some "") →
       (pollStep s (Except.ok t)).1.error
         = some "Preview generation failed") := by
  refine ⟨?_, ?_, ?_, ?_⟩
  · simp [pollStep, hst]
  · simp [pollStep, hst]
  · intro e he hne
    simp [pollStep, hst, jsStringOr, he, hne]
  · rintro (he | he) <;> simp [pollStep, hst, jsStringOr, he]

/-- Witness for C5: a populated non-empty error field is surfaced
verbatim. -/
theorem failed_poll_surfaces_error_witness :
    (pollStep samplePollingState (Except.ok sampleFailedTask)).1.error
      = some "TTS model not found" :=
  (failed_poll_surfaces_error samplePollingState sampleFailedTask rfl).2.2.1
    "TTS model not found" rfl (by decide)

/-- Claim C9: `cancelGeneration` never touches the polling interval; the
interval is cleared only when a poll returns `completed` or `failed` or
a poll throws, and a poll observing `cancelled` (or any other
non-terminal-for-the-client status) leaves it installed. -/
theorem cancel_never_stops_polling
    (s : ClientState) (fr : Except String Unit) (t : PreviewTask)
    (msg : String) :
    (cancelStep s fr).pollingActive = s.pollingActive ∧
    (t.status ≠ "completed" → t.status ≠ "failed" →
       (pollStep s (Except.ok t)).1.pollingActive = s.pollingActive) ∧
    (t.status = "cancelled" →
       (pollStep s (Except.ok t)).1.pollingActive = s.pollingActive) ∧
    (pollStep s (Except.error msg)).1.pollingActive = false ∧
    ((t.status = "completed" ∨ t.status = "failed") →
       (pollStep s (Except.ok t)).1.pollingActive = false) := by
  refine ⟨?_, ?_, ?_, ?_, ?_⟩
  · cases hc : s.currentTask with
    | none => simp [cancelStep, hc]
    | some u => cases fr <;> simp [cancelStep, hc]
  · intro h1 h2
    simp [pollStep, h1, h2]
  · intro hc
    simp [pollStep, hc]
  · simp [pollStep]
  · rintro (h1 | h1)
    · cases hv : t.video_path with
      | none => simp [pollStep, h1, hv]
      | some vp => by_cases hvp : vp = "" <;> simp [pollStep, h1, hv, hvp]
    · by_cases h2 : t.status = "completed"
      · cases hv : t.video_path with
        | none => simp [pollStep, h2, hv]
        | some vp => by_cases hvp : vp = "" <;> simp [pollStep, h2, hv, hvp]
      · simp [pollStep, h1, h2]

/-- Witness for C9: after a cancellation request the interval is still
installed, and a subsequent poll observing `cancelled` keeps it
installed. -/
theorem cancel_never_stops_polling_witness :
    (cancelStep stateWithTask (Except.ok ())).pollingActive
        = stateWithTask.pollingActive ∧
    (pollStep stateWithTask (Except.ok sampleCancelledTask)).1.pollingActive
        = stateWithTask.pollingActive :=
  ⟨(cancel_never_stops_polling stateWithTask (Except.ok ())
      sampleCancelledTask "m").1,
   (cancel_never_stops_polling stateWithTask (Except.ok ())
      sampleCancelledTask "m").2.2.1 rfl⟩

/-- Counterexample for C6: the client does not POST to
`/preview/generate-full`; the request path it issues carries the `/api`
prefix. -/
theorem generate_request_path_cex :
    generateRequest samplePollingState =
      some ({ method := "POST", path := "/api/preview/generate-full" },
            { prompt := "tell me a story", use_sample := true }) ∧
    "/api/preview/generate-full" ≠ "/preview/generate-full" := by
  exact ⟨by decide, by decide⟩

/-- Claim C6 (amended): to start a generation the client issues a POST
to `/api/preview/generate-full` whose JSON body has exactly the fields
`prompt` (the trimmed prompt string) and `use_sample` (a boolean, always
`true`); on success it records the returned `task_id`, `status`,
`progress` and `message` and immediately begins polling. -/
theorem generate_request_and_start
    (s : ClientState) (d : CreateResponse) (h : jsTrim s.prompt ≠ "") :
    generateRequest s =
      some ({ method := "POST", path := "/api/preview/generate-full" },
            { prompt := jsTrim s.prompt, use_sample := true }) ∧
    (generateStart s (Except.ok d)).currentTask =
      some { task_id := d.task_id, status := d.status,
             progress := d.progress, current_step := none,
             message := d.message, video_path := none,
             audio_path := none, error := none } ∧
    (generateStart s (Except.ok d)).pollingActive = true := by
  refine ⟨?_, ?_, ?_⟩ <;> simp [generateRequest, generateStart, h]

/-- Witness for C6 at a concrete prompt and create response. -/
theorem generate_request_and_start_witness :
    (generateStart samplePollingState (Except.ok sampleCreateResponse)).pollingActive
      = true :=
  (generate_request_and_start samplePollingState sampleCreateResponse
    (by decide)).2.2

/-- Counterexample for C7: the client does not DELETE
`/preview/tasks-full/{task_id}`; the issued path carries the `/api`
prefix. -/
theorem cancel_request_path_cex :
    cancelRequest stateWithTask =
      some { method := "DELETE", path := "/api/preview/tasks-full/t1" } ∧
    "/api/preview/tasks-full/t1" ≠ "/preview/tasks-full/t1" := by
  exact ⟨by decide, by decide⟩

/-- Claim C7 (amended): for an active task, `cancelGeneration` issues an
HTTP DELETE to `/api/preview/tasks-full/{task_id}` for that task's id
and, once the fetch resolves, clears the client's current-task state;
with no active task it issues no request and changes nothing. -/
theorem cancel_delete_then_clear
    (s : ClientState) (t : PreviewTask) (ht : s.currentTask = some t) :
    cancelRequest s =
      some { method := "DELETE",
             path := "/api/preview/tasks-full/" ++ t.task_id } ∧
    (cancelStep s (Except.ok ())).currentTask = none ∧
    (cancelStep s (Except.ok ())).isGenerating = false ∧
    (∀ s2 : ClientState, s2.currentTask = none →
       cancelRequest s2 = none ∧
       ∀ fr : Except String Unit, cancelStep s2 fr = s2) := by
  refine ⟨?_, ?_, ?_, ?_⟩
  · simp [cancelRequest, ht]
  · simp [cancelStep, ht]
  · simp [cancelStep, ht]
  · intro s2 h2
    exact ⟨by simp [cancelRequest, h2],
           fun fr => by simp [cancelStep, h2]⟩

/-- Witness for C7 at a concrete state holding a task. -/
theorem cancel_delete_then_clear_witness :
    cancelRequest stateWithTask =
      some { method := "DELETE", path := "/api/preview/tasks-full/"
               ++ sampleCancelledTask.task_id } ∧
    (cancelStep stateWithTask (Except.ok ())).currentTask = none :=
  ⟨(cancel_delete_then_clear stateWithTask sampleCancelledTask rfl).1,
   (cancel_delete_then_clear stateWithTask sampleCancelledTask rfl).2.1⟩

/-- Counterexample for C8: on a message mentioning `SadTalker: ` other
than as a prefix the panel is shown, and the rendered detail is the
message with the first occurrence removed — not "the message with the
prefix removed", which would leave the message unchanged here. -/
theorem sadtalker_detail_cex :
    sadTalkerPanelShown midSadTalkerTask = true ∧
    sadTalkerDetail midSadTalkerTask = some "Running 42%" ∧
    stripSadTalkerHead "Running SadTalker: 42%" = "Running SadTalker: 42%" ∧
    sadTalkerDetail midSadTalkerTask
      ≠ some (stripSadTalkerHead "Running SadTalker: 42%") := by
  exact ⟨by decide, by decide, by decide, by decide⟩

/-- Claim C8 (amended): the nested video-stage sub-panel is displayed
exactly when the status is `generating_video` and the message contains
the substring `SadTalker`; the detail shown is the message with the
first occurrence of `"SadTalker: "` removed, which coincides with
removing the prefix whenever the message starts with `"SadTalker: "`. -/
theorem sadtalker_panel_behavior
    (t : PreviewTask) (m : String) (hm : t.message = some m) :
    (sadTalkerPanelShown t = true ↔
      (t.status = "generating_video" ∧ strContainsSub m "SadTalker" = true)) ∧
    (sadTalkerPanelShown t = true →
      sadTalkerDetail t = some (jsReplaceFirst m "SadTalker: ")) ∧
    (∀ rest : String,
      jsReplaceFirst ("SadTalker: " ++ rest) "SadTalker: " = rest) := by
  refine ⟨?_, ?_, fun rest => jsReplaceFirst_strip rest⟩
  · simp [sadTalkerPanelShown, hm]
  · intro hshown
    rw [sadTalkerPanelShown, hm] at hshown
    simp at hshown
    simp [sadTalkerDetail, hm, hshown.1, hshown.2]

/-- Witness for C8 at a concrete prefix-form message. -/
theorem sadtalker_panel_behavior_witness :
    jsReplaceFirst ("SadTalker: " ++ "frame 3 of 120") "SadTalker: "
      = "frame 3 of 120" :=
  (sadtalker_panel_behavior midSadTalkerTask "Running SadTalker: 42%"
    rfl).2.2 "frame 3 of 120"

/-- Claim C2: a coordinator progress update on a well-formed non-negative
task record keeps `progress` an integer in 0-100 and never decreases it
(the backend is modelled from the spec, see `coordinatorApplyUpdate`);
and in the client's simulated inference progress, one tick with a
`Math.random()` draw `r` produces a value greater than or equal to the
previous one, staying within 0-90 (hence within 0-100). -/
theorem progress_nondecreasing_bounds
    (t : TaskRecord) (p : Int) (msg : String)
    (h0 : 0 ≤ t.progress) (h100 : t.progress ≤ 100)
    (s : InferenceProgress) (r : ℚ) (hr : 0 ≤ r)
    (hs0 : 0 ≤ s.progress) (hs90 : s.progress ≤ 90) :
    (t.progress ≤ (coordinatorApplyUpdate t p msg).progress ∧
     0 ≤ (coordinatorApplyUpdate t p msg).progress ∧
     (coordinatorApplyUpdate t p msg).progress ≤ 100) ∧
    (s.progress ≤ (progressTick s r).progress ∧
     0 ≤ (progressTick s r).progress ∧
     (progressTick s r).progress ≤ 90) := by
  have h15 : (0 : ℚ) ≤ r * 15 := mul_nonneg hr (by norm_num)
  constructor
  · rw [coordinatorApplyUpdate]
    by_cases hterm : terminalStatus t.status = true
    · rw [if_pos hterm]
      exact ⟨le_refl _, h0, h100⟩
    · rw [if_neg hterm]
      refine ⟨le_max_left _ _, le_trans h0 (le_max_left _ _), ?_⟩
      exact max_le h100 (min_le_left _ _)
  · rw [progressTick]
    by_cases hrun : s.status ≠ "running"
    · rw [if_pos hrun]
      exact ⟨le_refl _, hs0, hs90⟩
    · rw [if_neg hrun]
      refine ⟨?_, ?_, min_le_right _ _⟩
      · exact le_min (le_add_of_nonneg_right h15) hs90
      · exact le_min (add_nonneg hs0 h15) (by norm_num)

/-- Witness for C2 at a concrete record, update and tick. -/
theorem progress_nondecreasing_bounds_witness :
    sampleTaskRecord.progress
        ≤ (coordinatorApplyUpdate sampleTaskRecord 55 "m").progress ∧
    sampleRunningInf.progress
        ≤ (progressTick sampleRunningInf (1 / 3)).progress :=
  ⟨(progress_nondecreasing_bounds sampleTaskRecord 55 "m" (by decide)
      (by decide) sampleRunningInf (1 / 3) (by norm_num)
      (by norm_num [sampleRunningInf]) (by norm_num [sampleRunningInf])).1.1,
   (progress_nondecreasing_bounds sampleTaskRecord 55 "m" (by decide)
      (by decide) sampleRunningInf (1 / 3) (by norm_num)
      (by norm_num [sampleRunningInf]) (by norm_num [sampleRunningInf])).2.1⟩

/-- Claim C3: an update arriving after the state has left the running
(non-terminal) status is discarded unchanged — the client's simulated
updater checks `prev.status !== 'running'` before applying, and the
spec-modelled Coordinator checks that the task is still non-terminal. -/
theorem stale_update_discarded
    (s : InferenceProgress) (r : ℚ) (hs : s.status ≠ "running")
    (t : TaskRecord) (p : Int) (m : String)
    (ht : terminalStatus t.status = true) :
    progressTick s r = s ∧ coordinatorApplyUpdate t p m = t := by
  constructor
  · rw [progressTick, if_pos hs]
  · rw [coordinatorApplyUpdate, if_pos ht]

/-- Witness for C3: a tick against a completed inference state and an
update against a cancelled task record both leave the state untouched. -/
theorem stale_update_discarded_witness :
    progressTick sampleDoneInf (2 / 3) = sampleDoneInf ∧
    coordinatorApplyUpdate cancelledTaskRecord 99 "late" = cancelledTaskRecord :=
  stale_update_discarded sampleDoneInf (2 / 3) (by decide)
    cancelledTaskRecord 99 "late" (by decide)

/-- Claim C10: the results panel renders the original size with its
tuple components swapped (`original_size[1] × original_size[0]`) while
the prepared size is rendered in tuple order; a `[800, 600]` response is
displayed as `600 × 800 pixels`. -/
theorem size_render_order (w h : Int) :
    renderOriginalSize (w, h) = toString h ++ " × " ++ toString w ++ " pixels" ∧
    renderPreparedSize (w, h) = toString w ++ " × " ++ toString h ++ " pixels" ∧
    renderOriginalSize (800, 600) = "600 × 800 pixels" ∧
    renderPreparedSize (512, 512) = "512 × 512 pixels" := by
  exact ⟨rfl, rfl, by decide, by decide⟩
